import Mathlib

/-!
Shallow embedding of `src/STM32RTC.cpp` (the STM32RTC Arduino wrapper).

The wrapper keeps a cache of calendar/time/alarm fields (the `_hours`,
`_minutes`, ... members of the C++ class) and talks to the hardware RTC
through HAL calls (`RTC_GetTime`, `RTC_SetTime`, `RTC_GetDate`,
`RTC_SetDate`, `RTC_GetAlarm`, `RTC_StartAlarm`, `RTC_StopAlarm`).  We
model the HAL as a deterministic hardware state `HWState`; each HAL call
reads or writes that state.  Machine integers are modelled as `Nat`;
`uint32_t` wrap-around is written explicitly as `% 4294967296` at the
places the C code truncates (the `getEpoch` return value, the `uint32_t`
subtraction in `getY2kEpoch` and the `uint32_t` addition in
`setY2kEpoch`).  `time_t` is modelled as an unbounded natural number
(64-bit `time_t` of current newlib, large enough for every `uint32_t`
timestamp).
-/

namespace STM32RTC

/-- EPOCH_TIME_OFF from STM32RTC.cpp: 1st January 2000, 00:00:00 in epoch time. -/
def EPOCH_TIME_OFF : Nat := 946684800

/-- EPOCH_TIME_YEAR_OFF from STM32RTC.cpp: years since 1900 of year 2000. -/
def EPOCH_TIME_YEAR_OFF : Nat := 100

/-- Modulus of `uint32_t` arithmetic. -/
def UINT32_MOD : Nat := 4294967296

/-- Hour period, the `AM_PM` enum of the wrapper. -/
inductive AM_PM
  | AM
  | PM
deriving DecidableEq

/-- Hour format, the `Hour_Format` enum of the wrapper. -/
inductive Hour_Format
  | HOUR_12
  | HOUR_24
deriving DecidableEq

/-- Alarm match policy, the `Alarm_Match` enum of the wrapper.  The numeric
values of the enumerators are irrelevant to the embedded code paths, so the
hardware alarm register is modelled as storing an `Alarm_Match` directly. -/
inductive Alarm_Match
  | MATCH_OFF
  | MATCH_SS
  | MATCH_MMSS
  | MATCH_HHMMSS
  | MATCH_DHHMMSS
  | MATCH_MMDDHHMMSS
  | MATCH_YYMMDDHHMMSS
deriving DecidableEq

/-! ## Calendar arithmetic (model of the C library `gmtime` / `mktime`)

Modelled from the spec: the wrapper relies on the C library functions
`gmtime` (UTC decomposition of an epoch into calendar fields) and `mktime`
(recomposition of calendar fields into an epoch); those functions are
external to the repository.  We model them by the standard UTC proleptic
Gregorian calendar conversion (arithmetic civil-from-days/days-from-civil
algorithms); concrete anchor theorems below check the model against known
calendar dates. -/

/-- Year-of-era from day-of-era, the divisor step of the civil-from-days
algorithm. -/
def yoeOf (doe : Nat) : Nat :=
  (doe - doe / 1460 + doe / 36524 - doe / 146096) / 365

/-- First day-of-era of a year-of-era. -/
def yoeStart (yoe : Nat) : Nat := 365 * yoe + yoe / 4 - yoe / 100

/-- Day-of-era of a day count `z` (days since 1970-01-01). -/
def doeOf (z : Nat) : Nat := (z + 719468) % 146097

/-- Era (400-year block) of a day count `z`. -/
def eraOf (z : Nat) : Nat := (z + 719468) / 146097

/-- Day-of-year (March-based) of a day count `z`. -/
def doyOf (z : Nat) : Nat := doeOf z - yoeStart (yoeOf (doeOf z))

/-- March-based month index (0 = March, ..., 11 = February) of a day count. -/
def mpOf (z : Nat) : Nat := (5 * doyOf z + 2) / 153

/-- Civil month (1-12) of a day count `z`. -/
def monthOfDays (z : Nat) : Nat := if mpOf z < 10 then mpOf z + 3 else mpOf z - 9

/-- Civil day-of-month (1-31) of a day count `z`. -/
def dayOfDays (z : Nat) : Nat := doyOf z - (153 * mpOf z + 2) / 5 + 1

/-- Civil year of a day count `z`. -/
def yearOfDays (z : Nat) : Nat :=
  eraOf z * 400 + yoeOf (doeOf z) + (if monthOfDays z ≤ 2 then 1 else 0)

/-- Civil date `(year, month, day)` of a day count `z` (days since
1970-01-01): the UTC Gregorian decomposition used by `gmtime`. -/
def civilFromDays (z : Nat) : Nat × Nat × Nat :=
  (yearOfDays z, monthOfDays z, dayOfDays z)

/-- Day count (days since 1970-01-01) of a civil date: the UTC Gregorian
recomposition used by `mktime`. -/
def daysFromCivil (y m d : Nat) : Nat :=
  let yy := if m ≤ 2 then y - 1 else y
  let era := yy / 400
  let yoe := yy % 400
  let doy := (153 * (if 2 < m then m - 3 else m + 9) + 2) / 5 + d - 1
  let doe := yoeStart yoe + doy
  era * 146097 + doe - 719468

/-- Broken-down time, the fields of `struct tm` used by the wrapper
(`tm_year` counts years since 1900, `tm_mon` is 0-based). -/
structure Tm where
  tm_sec : Nat
  tm_min : Nat
  tm_hour : Nat
  tm_mday : Nat
  tm_mon : Nat
  tm_year : Nat
  tm_wday : Nat
deriving DecidableEq

/-- Modelled from the spec: the C library `gmtime`, UTC decomposition of an
epoch value into broken-down time. -/
def gmtimeOf (t : Nat) : Tm :=
  let days := t / 86400
  let rem := t % 86400
  { tm_year := (civilFromDays days).1 - 1900
    tm_mon := (civilFromDays days).2.1 - 1
    tm_mday := (civilFromDays days).2.2
    tm_hour := rem / 3600
    tm_min := rem % 3600 / 60
    tm_sec := rem % 60
    tm_wday := (days + 4) % 7 }

/-- Modelled from the spec: the C library `mktime` on in-range broken-down
UTC time (the only inputs `getEpoch` builds from the synchronized cache):
recomposition of `tm_year`/`tm_mon`/`tm_mday`/`tm_hour`/`tm_min`/`tm_sec`
into an epoch value. -/
def mktimeVal (tm_year tm_mon tm_mday tm_hour tm_min tm_sec : Nat) : Nat :=
  daysFromCivil (1900 + tm_year) (tm_mon + 1) tm_mday * 86400
    + tm_hour * 3600 + tm_min * 60 + tm_sec

/-! ## State -/

/-- The cached members of the `STM32RTC` class (including the static
`_timeSet`). -/
structure RTCState where
  _hours : Nat
  _minutes : Nat
  _seconds : Nat
  _subSeconds : Nat
  _hoursPeriod : AM_PM
  _wday : Nat
  _day : Nat
  _month : Nat
  _year : Nat
  _alarmDay : Nat
  _alarmHours : Nat
  _alarmMinutes : Nat
  _alarmSeconds : Nat
  _alarmSubSeconds : Nat
  _alarmPeriod : AM_PM
  _alarmMatch : Alarm_Match
  _format : Hour_Format
  _timeSet : Bool
deriving DecidableEq

/-- Model of the hardware RTC state behind the HAL calls. -/
structure HWState where
  hwHours : Nat
  hwMinutes : Nat
  hwSeconds : Nat
  hwSubSeconds : Nat
  hwPeriod : AM_PM
  hwYear : Nat
  hwMonth : Nat
  hwDay : Nat
  hwWday : Nat
  hwAlarmDay : Nat
  hwAlarmHours : Nat
  hwAlarmMinutes : Nat
  hwAlarmSeconds : Nat
  hwAlarmSubSeconds : Nat
  hwAlarmPeriod : AM_PM
  hwAlarmMatch : Alarm_Match
  hwAlarmEnabled : Bool
deriving DecidableEq

/-- Whole machine state: the wrapper's cache plus the hardware RTC. -/
structure RTC where
  rtc : RTCState
  hw : HWState
deriving DecidableEq

/-! ## HAL model

Each HAL function is modelled as a deterministic read or write of
`HWState`.  The `hourAM_PM_t`/`AM_PM` conversions of the C code
(`(p == HOUR_AM) ? AM : PM` and back) are bijections and are modelled as
the identity on `AM_PM`. -/

/-- Model of `RTC_SetTime`. -/
def RTC_SetTime (hw : HWState) (h m sec ss : Nat) (p : AM_PM) : HWState :=
  { hw with hwHours := h, hwMinutes := m, hwSeconds := sec,
            hwSubSeconds := ss, hwPeriod := p }

/-- Model of `RTC_SetDate`. -/
def RTC_SetDate (hw : HWState) (y mo d wd : Nat) : HWState :=
  { hw with hwYear := y, hwMonth := mo, hwDay := d, hwWday := wd }

/-- Model of `RTC_StartAlarm`. -/
def RTC_StartAlarm (hw : HWState) (d h m sec ss : Nat) (p : AM_PM)
    (mt : Alarm_Match) : HWState :=
  { hw with hwAlarmDay := d, hwAlarmHours := h, hwAlarmMinutes := m,
            hwAlarmSeconds := sec, hwAlarmSubSeconds := ss,
            hwAlarmPeriod := p, hwAlarmMatch := mt, hwAlarmEnabled := true }

/-- Model of `RTC_StopAlarm`. -/
def RTC_StopAlarm (hw : HWState) : HWState :=
  { hw with hwAlarmEnabled := false }

/-! ## Synchronization helpers (STM32RTC::syncTime / syncDate / syncAlarmTime) -/

/-- `syncTime`: refresh the cached time fields from `RTC_GetTime`. -/
def syncTime (s : RTC) : RTC :=
  { s with rtc := { s.rtc with
      _hours := s.hw.hwHours
      _minutes := s.hw.hwMinutes
      _seconds := s.hw.hwSeconds
      _subSeconds := s.hw.hwSubSeconds
      _hoursPeriod := s.hw.hwPeriod } }

/-- `syncDate`: refresh the cached date fields from `RTC_GetDate`. -/
def syncDate (s : RTC) : RTC :=
  { s with rtc := { s.rtc with
      _year := s.hw.hwYear
      _month := s.hw.hwMonth
      _day := s.hw.hwDay
      _wday := s.hw.hwWday } }

/-- `syncAlarmTime`: refresh the cached alarm fields from `RTC_GetAlarm`.
The C code decodes the raw match byte through a switch whose listed cases
map each valid `Alarm_Match` value to itself and whose default maps
anything else to `MATCH_OFF`; with the hardware register modelled as an
`Alarm_Match`, the decode is the identity. -/
def syncAlarmTime (s : RTC) : RTC :=
  { s with rtc := { s.rtc with
      _alarmDay := s.hw.hwAlarmDay
      _alarmHours := s.hw.hwAlarmHours
      _alarmMinutes := s.hw.hwAlarmMinutes
      _alarmSeconds := s.hw.hwAlarmSeconds
      _alarmSubSeconds := s.hw.hwAlarmSubSeconds
      _alarmPeriod := s.hw.hwAlarmPeriod
      _alarmMatch := s.hw.hwAlarmMatch } }

/-! ## Get accessors

Each getter returns the state after its synchronization together with the
returned value (out-pointer parameters that merely copy cached fields do
not change the state). -/

/-- `getSubSeconds`. -/
def getSubSeconds (s : RTC) : RTC × Nat :=
  let s1 := syncTime s
  (s1, s1.rtc._subSeconds)

/-- `getSeconds`. -/
def getSeconds (s : RTC) : RTC × Nat :=
  let s1 := syncTime s
  (s1, s1.rtc._seconds)

/-- `getMinutes`. -/
def getMinutes (s : RTC) : RTC × Nat :=
  let s1 := syncTime s
  (s1, s1.rtc._minutes)

/-- `getHours`: returns the hours; the optional out-pointer receives the
cached period, returned here as the second value. -/
def getHours (s : RTC) : RTC × Nat × AM_PM :=
  let s1 := syncTime s
  (s1, s1.rtc._hours, s1.rtc._hoursPeriod)

/-- `getTime`: copies hours, minutes, seconds, subseconds and period to the
caller. -/
def getTime (s : RTC) : RTC × Nat × Nat × Nat × Nat × AM_PM :=
  let s1 := syncTime s
  (s1, s1.rtc._hours, s1.rtc._minutes, s1.rtc._seconds, s1.rtc._subSeconds,
    s1.rtc._hoursPeriod)

/-- `getWeekDay`. -/
def getWeekDay (s : RTC) : RTC × Nat :=
  let s1 := syncDate s
  (s1, s1.rtc._wday)

/-- `getDay`. -/
def getDay (s : RTC) : RTC × Nat :=
  let s1 := syncDate s
  (s1, s1.rtc._day)

/-- `getMonth`. -/
def getMonth (s : RTC) : RTC × Nat :=
  let s1 := syncDate s
  (s1, s1.rtc._month)

/-- `getYear`. -/
def getYear (s : RTC) : RTC × Nat :=
  let s1 := syncDate s
  (s1, s1.rtc._year)

/-- `getDate`: copies weekday, day, month and year to the caller. -/
def getDate (s : RTC) : RTC × Nat × Nat × Nat × Nat :=
  let s1 := syncDate s
  (s1, s1.rtc._wday, s1.rtc._day, s1.rtc._month, s1.rtc._year)

/-- `getAlarmSubSeconds`. -/
def getAlarmSubSeconds (s : RTC) : RTC × Nat :=
  let s1 := syncAlarmTime s
  (s1, s1.rtc._alarmSubSeconds)

/-- `getAlarmSeconds`. -/
def getAlarmSeconds (s : RTC) : RTC × Nat :=
  let s1 := syncAlarmTime s
  (s1, s1.rtc._alarmSeconds)

/-- `getAlarmMinutes`. -/
def getAlarmMinutes (s : RTC) : RTC × Nat :=
  let s1 := syncAlarmTime s
  (s1, s1.rtc._alarmMinutes)

/-- `getAlarmHours`. -/
def getAlarmHours (s : RTC) : RTC × Nat × AM_PM :=
  let s1 := syncAlarmTime s
  (s1, s1.rtc._alarmHours, s1.rtc._alarmPeriod)

/-- `getAlarmDay`. -/
def getAlarmDay (s : RTC) : RTC × Nat :=
  let s1 := syncAlarmTime s
  (s1, s1.rtc._alarmDay)

/-- `getAlarmMonth`: kept for compatibility, always returns 0 and performs
no synchronization. -/
def getAlarmMonth (s : RTC) : RTC × Nat := (s, 0)

/-- `getAlarmYear`: kept for compatibility, always returns 0 and performs
no synchronization. -/
def getAlarmYear (s : RTC) : RTC × Nat := (s, 0)

/-! ## Set accessors -/

/-- `setSubSeconds`. -/
def setSubSeconds (s : RTC) (subSeconds : Nat) : RTC :=
  let s1 := syncTime s
  let r := if subSeconds < 1000 then { s1.rtc with _subSeconds := subSeconds }
           else s1.rtc
  { rtc := { r with _timeSet := true }
    hw := RTC_SetTime s1.hw r._hours r._minutes r._seconds r._subSeconds
            r._hoursPeriod }

/-- `setSeconds`. -/
def setSeconds (s : RTC) (seconds : Nat) : RTC :=
  let s1 := syncTime s
  let r := if seconds < 60 then { s1.rtc with _seconds := seconds } else s1.rtc
  { rtc := { r with _timeSet := true }
    hw := RTC_SetTime s1.hw r._hours r._minutes r._seconds r._subSeconds
            r._hoursPeriod }

/-- `setMinutes`. -/
def setMinutes (s : RTC) (minutes : Nat) : RTC :=
  let s1 := syncTime s
  let r := if minutes < 60 then { s1.rtc with _minutes := minutes } else s1.rtc
  { rtc := { r with _timeSet := true }
    hw := RTC_SetTime s1.hw r._hours r._minutes r._seconds r._subSeconds
            r._hoursPeriod }

/-- `setHours`. -/
def setHours (s : RTC) (hours : Nat) (period : AM_PM) : RTC :=
  let s1 := syncTime s
  let r := if hours < 24 then { s1.rtc with _hours := hours } else s1.rtc
  let r := if r._format = Hour_Format.HOUR_12 then { r with _hoursPeriod := period }
           else r
  { rtc := { r with _timeSet := true }
    hw := RTC_SetTime s1.hw r._hours r._minutes r._seconds r._subSeconds
            r._hoursPeriod }

/-- `setTime`. -/
def setTime (s : RTC) (hours minutes seconds subSeconds : Nat)
    (period : AM_PM) : RTC :=
  let s1 := syncTime s
  let r := if subSeconds < 1000 then { s1.rtc with _subSeconds := subSeconds }
           else s1.rtc
  let r := if seconds < 60 then { r with _seconds := seconds } else r
  let r := if minutes < 60 then { r with _minutes := minutes } else r
  let r := if hours < 24 then { r with _hours := hours } else r
  let r := if r._format = Hour_Format.HOUR_12 then { r with _hoursPeriod := period }
           else r
  { rtc := { r with _timeSet := true }
    hw := RTC_SetTime s1.hw r._hours r._minutes r._seconds r._subSeconds
            r._hoursPeriod }

/-- `setWeekDay`. -/
def setWeekDay (s : RTC) (weekDay : Nat) : RTC :=
  let s1 := syncDate s
  let r := if 1 ≤ weekDay ∧ weekDay ≤ 7 then { s1.rtc with _wday := weekDay }
           else s1.rtc
  { rtc := { r with _timeSet := true }
    hw := RTC_SetDate s1.hw r._year r._month r._day r._wday }

/-- `setDay`. -/
def setDay (s : RTC) (day : Nat) : RTC :=
  let s1 := syncDate s
  let r := if 1 ≤ day ∧ day ≤ 31 then { s1.rtc with _day := day } else s1.rtc
  { rtc := { r with _timeSet := true }
    hw := RTC_SetDate s1.hw r._year r._month r._day r._wday }

/-- `setMonth`. -/
def setMonth (s : RTC) (month : Nat) : RTC :=
  let s1 := syncDate s
  let r := if 1 ≤ month ∧ month ≤ 12 then { s1.rtc with _month := month }
           else s1.rtc
  { rtc := { r with _timeSet := true }
    hw := RTC_SetDate s1.hw r._year r._month r._day r._wday }

/-- `setYear`. -/
def setYear (s : RTC) (year : Nat) : RTC :=
  let s1 := syncDate s
  let r := if year < 100 then { s1.rtc with _year := year } else s1.rtc
  { rtc := { r with _timeSet := true }
    hw := RTC_SetDate s1.hw r._year r._month r._day r._wday }

/-- `setDate` (day, month, year overload). -/
def setDate (s : RTC) (day month year : Nat) : RTC :=
  let s1 := syncDate s
  let r := if 1 ≤ day ∧ day ≤ 31 then { s1.rtc with _day := day } else s1.rtc
  let r := if 1 ≤ month ∧ month ≤ 12 then { r with _month := month } else r
  let r := if year < 100 then { r with _year := year } else r
  { rtc := { r with _timeSet := true }
    hw := RTC_SetDate s1.hw r._year r._month r._day r._wday }

/-- `setDate` (weekDay, day, month, year overload). -/
def setDate4 (s : RTC) (weekDay day month year : Nat) : RTC :=
  let s1 := syncDate s
  let r := if 1 ≤ weekDay ∧ weekDay ≤ 7 then { s1.rtc with _wday := weekDay }
           else s1.rtc
  let r := if 1 ≤ day ∧ day ≤ 31 then { r with _day := day } else r
  let r := if 1 ≤ month ∧ month ≤ 12 then { r with _month := month } else r
  let r := if year < 100 then { r with _year := year } else r
  { rtc := { r with _timeSet := true }
    hw := RTC_SetDate s1.hw r._year r._month r._day r._wday }

/-- `setAlarmSubSeconds`: cache-only update, no HAL call. -/
def setAlarmSubSeconds (s : RTC) (subSeconds : Nat) : RTC :=
  if subSeconds < 1000 then
    { s with rtc := { s.rtc with _alarmSubSeconds := subSeconds } }
  else s

/-- `setAlarmSeconds`: cache-only update, no HAL call. -/
def setAlarmSeconds (s : RTC) (seconds : Nat) : RTC :=
  if seconds < 60 then
    { s with rtc := { s.rtc with _alarmSeconds := seconds } }
  else s

/-- `setAlarmMinutes`: cache-only update, no HAL call. -/
def setAlarmMinutes (s : RTC) (minutes : Nat) : RTC :=
  if minutes < 60 then
    { s with rtc := { s.rtc with _alarmMinutes := minutes } }
  else s

/-- `setAlarmHours`: cache-only update, no HAL call. -/
def setAlarmHours (s : RTC) (hours : Nat) (period : AM_PM) : RTC :=
  let s1 := if hours < 24 then
              { s with rtc := { s.rtc with _alarmHours := hours } }
            else s
  if s1.rtc._format = Hour_Format.HOUR_12 then
    { s1 with rtc := { s1.rtc with _alarmPeriod := period } }
  else s1

/-- `setAlarmTime`: sequence of the four alarm time setters. -/
def setAlarmTime (s : RTC) (hours minutes seconds subSeconds : Nat)
    (period : AM_PM) : RTC :=
  setAlarmSubSeconds
    (setAlarmSeconds (setAlarmMinutes (setAlarmHours s hours period) minutes)
      seconds) subSeconds

/-- `setAlarmDay`: cache-only update, no HAL call. -/
def setAlarmDay (s : RTC) (day : Nat) : RTC :=
  if 1 ≤ day ∧ day ≤ 31 then
    { s with rtc := { s.rtc with _alarmDay := day } }
  else s

/-- `setAlarmMonth`: kept for compatibility, the argument is ignored. -/
def setAlarmMonth (s : RTC) (month : Nat) : RTC := s

/-- `setAlarmYear`: kept for compatibility, the argument is ignored. -/
def setAlarmYear (s : RTC) (year : Nat) : RTC := s

/-- `setAlarmDate`: month and year are ignored, the day is forwarded to
`setAlarmDay`. -/
def setAlarmDate (s : RTC) (day month year : Nat) : RTC :=
  setAlarmDay s day

/-! ## Alarm control and epoch operations -/

/-- `enableAlarm`: record the match in the cache, then stop the hardware
alarm for `MATCH_OFF` or start it from the cached alarm fields for the six
match policies. -/
def enableAlarm (s : RTC) (mt : Alarm_Match) : RTC :=
  let r := { s.rtc with _alarmMatch := mt }
  match mt with
  | Alarm_Match.MATCH_OFF => { rtc := r, hw := RTC_StopAlarm s.hw }
  | _ =>
      { rtc := r
        hw := RTC_StartAlarm s.hw r._alarmDay r._alarmHours r._alarmMinutes
                r._alarmSeconds r._alarmSubSeconds r._alarmPeriod mt }

/-- `disableAlarm`: stop the hardware alarm. -/
def disableAlarm (s : RTC) : RTC :=
  { s with hw := RTC_StopAlarm s.hw }

/-- RTC_WEEKDAY_SUNDAY of the HAL headers (weekdays are 1 = Monday ...
7 = Sunday). -/
def RTC_WEEKDAY_SUNDAY : Nat := 7

/-- `getEpoch`: synchronize date and time, build a `struct tm` from the
cache (`tm_year = _year + EPOCH_TIME_YEAR_OFF`, `tm_mon = _month - 1`) and
return `mktime` of it truncated to `uint32_t`.  The optional out-pointer
receives the cached subseconds, returned here as the last value. -/
def getEpoch (s : RTC) : RTC × Nat × Nat :=
  let s1 := syncTime (syncDate s)
  (s1,
    mktimeVal (s1.rtc._year + EPOCH_TIME_YEAR_OFF) (s1.rtc._month - 1)
      s1.rtc._day s1.rtc._hours s1.rtc._minutes s1.rtc._seconds % UINT32_MOD,
    s1.rtc._subSeconds)

/-- `getY2kEpoch`: `getEpoch() - EPOCH_TIME_OFF` in `uint32_t` arithmetic,
i.e. subtraction modulo 2^32. -/
def getY2kEpoch (s : RTC) : RTC × Nat :=
  let r := getEpoch s
  (r.1, (r.2.1 + (UINT32_MOD - EPOCH_TIME_OFF)) % UINT32_MOD)

/-- `setAlarmEpoch`: floor the timestamp at `EPOCH_TIME_OFF`, decompose it
with `gmtime` and forward the fields through the alarm setters, then
`enableAlarm(match)`.  The period argument of `setAlarmHours` is its
default `AM` (default from the class declaration). -/
def setAlarmEpoch (s : RTC) (ts : Nat) (mt : Alarm_Match)
    (subSeconds : Nat) : RTC :=
  let ts1 := if ts < EPOCH_TIME_OFF then EPOCH_TIME_OFF else ts
  let tmp := gmtimeOf ts1
  let s1 := setAlarmDay s tmp.tm_mday
  let s2 := setAlarmHours s1 tmp.tm_hour AM_PM.AM
  let s3 := setAlarmMinutes s2 tmp.tm_min
  let s4 := setAlarmSeconds s3 tmp.tm_sec
  let s5 := setAlarmSubSeconds s4 subSeconds
  enableAlarm s5 mt

/-- `setEpoch`: floor the timestamp at `EPOCH_TIME_OFF`, decompose it with
`gmtime`, store the fields in the cache (`_subSeconds` is stored without
any range check) and write date and time through to the hardware. -/
def setEpoch (s : RTC) (ts subSeconds : Nat) : RTC :=
  let ts1 := if ts < EPOCH_TIME_OFF then EPOCH_TIME_OFF else ts
  let tmp := gmtimeOf ts1
  let r := { s.rtc with
    _year := tmp.tm_year - EPOCH_TIME_YEAR_OFF
    _month := tmp.tm_mon + 1
    _day := tmp.tm_mday
    _wday := if tmp.tm_wday = 0 then RTC_WEEKDAY_SUNDAY else tmp.tm_wday
    _hours := tmp.tm_hour
    _minutes := tmp.tm_min
    _seconds := tmp.tm_sec
    _subSeconds := subSeconds
    _timeSet := true }
  { rtc := r
    hw := RTC_SetTime (RTC_SetDate s.hw r._year r._month r._day r._wday)
            r._hours r._minutes r._seconds r._subSeconds r._hoursPeriod }

/-- `setY2kEpoch`: `setEpoch(ts + EPOCH_TIME_OFF)` with the `uint32_t`
addition wrapping modulo 2^32 (and the default `subSeconds = 0` of
`setEpoch`). -/
def setY2kEpoch (s : RTC) (ts : Nat) : RTC :=
  setEpoch s ((ts + EPOCH_TIME_OFF) % UINT32_MOD) 0

/-- `begin(resetTime, format)`: the result of `RTC_init` (whether the RTC
block had to be reconfigured) depends on hardware history, so it is passed
as the oracle argument `reinit`.  On `reinit` the cache is synchronized
from hardware and the alarm members are initialized from the current time. -/
def beginRTC (s : RTC) (resetTime : Bool) (format : Hour_Format)
    (reinit : Bool) : RTC :=
  let r0 := if resetTime then { s.rtc with _timeSet := false } else s.rtc
  let r0 := { r0 with _format := format }
  if reinit then
    let s1 := syncDate (syncTime { rtc := { r0 with _timeSet := false }, hw := s.hw })
    { s1 with rtc := { s1.rtc with
        _alarmDay := s1.rtc._day
        _alarmHours := s1.rtc._hours
        _alarmMinutes := s1.rtc._minutes
        _alarmSeconds := s1.rtc._seconds
        _alarmSubSeconds := s1.rtc._subSeconds
        _alarmPeriod := s1.rtc._hoursPeriod } }
  else { rtc := { r0 with _timeSet := true }, hw := s.hw }

/-! ## Range invariants (spec section 3) -/

/-- Range invariant on the cached time/date fields: seconds in [0,59],
minutes in [0,59], hours in [0,23], subseconds in [0,999], day in [1,31],
month in [1,12], year in [0,99]. -/
def rtcInv (r : RTCState) : Prop :=
  r._seconds ≤ 59 ∧ r._minutes ≤ 59 ∧ r._hours ≤ 23 ∧ r._subSeconds ≤ 999 ∧
  1 ≤ r._day ∧ r._day ≤ 31 ∧ 1 ≤ r._month ∧ r._month ≤ 12 ∧ r._year ≤ 99

instance (r : RTCState) : Decidable (rtcInv r) := by
  unfold rtcInv; infer_instance

/-- The hardware returns in-range values on synchronization (hypothesis of
the invariant-preservation claim). -/
def hwInv (hw : HWState) : Prop :=
  hw.hwSeconds ≤ 59 ∧ hw.hwMinutes ≤ 59 ∧ hw.hwHours ≤ 23 ∧
  hw.hwSubSeconds ≤ 999 ∧ 1 ≤ hw.hwDay ∧ hw.hwDay ≤ 31 ∧
  1 ≤ hw.hwMonth ∧ hw.hwMonth ≤ 12 ∧ hw.hwYear ≤ 99

instance (hw : HWState) : Decidable (hwInv hw) := by
  unfold hwInv; infer_instance

/-! ## Concrete sample states (used by witnesses and counterexamples) -/

/-- A concrete hardware state with in-range fields. -/
def sampleHW : HWState :=
  { hwHours := 13, hwMinutes := 14, hwSeconds := 10, hwSubSeconds := 500,
    hwPeriod := AM_PM.AM, hwYear := 25, hwMonth := 6, hwDay := 15,
    hwWday := 2, hwAlarmDay := 3, hwAlarmHours := 4, hwAlarmMinutes := 5,
    hwAlarmSeconds := 11, hwAlarmSubSeconds := 250,
    hwAlarmPeriod := AM_PM.AM, hwAlarmMatch := Alarm_Match.MATCH_SS,
    hwAlarmEnabled := false }

/-- A concrete machine state with in-range fields. -/
def sampleState : RTC :=
  { rtc := { _hours := 1, _minutes := 2, _seconds := 3, _subSeconds := 4,
             _hoursPeriod := AM_PM.AM, _wday := 1, _day := 5, _month := 6,
             _year := 7, _alarmDay := 8, _alarmHours := 9,
             _alarmMinutes := 10, _alarmSeconds := 11,
             _alarmSubSeconds := 12, _alarmPeriod := AM_PM.AM,
             _alarmMatch := Alarm_Match.MATCH_OFF,
             _format := Hour_Format.HOUR_24, _timeSet := false }
    hw := sampleHW }

/-! ## Correctness of the calendar model

`civil_ok` proves that on the whole day range reachable from a `uint32_t`
timestamp (days 10957 to 49710, i.e. 2000-01-01 to 2106-02-07) the
decomposition `civilFromDays` inverts `daysFromCivil` and yields in-range
month and day and a year of at least 2000 (at most 2099 below day 47482,
i.e. before 2100-01-01).  The anchor theorems pin the model to known
calendar dates. -/

/-- Anchor: day 10957 is 2000-01-01, day 18321 is 2020-02-29 (leap day),
day 24855 is 2038-01-19, day 47481 is 2099-12-31, day 47482 is 2100-01-01
(2100 is not a leap year), day 49710 is 2106-02-07. -/
theorem civilFromDays_anchors :
    civilFromDays 10957 = (2000, 1, 1) ∧
    civilFromDays 18321 = (2020, 2, 29) ∧
    civilFromDays 24855 = (2038, 1, 19) ∧
    civilFromDays 47481 = (2099, 12, 31) ∧
    civilFromDays 47482 = (2100, 1, 1) ∧
    civilFromDays 49710 = (2106, 2, 7) := by
  refine ⟨?_, ?_, ?_, ?_, ?_, ?_⟩ <;> decide

/-- Anchor: `mktimeVal` on 2000-01-01 00:00:00 gives `EPOCH_TIME_OFF`, on
2038-01-19 03:14:07 gives 2147483647 and on 2106-02-07 06:28:15 gives
4294967295. -/
theorem mktimeVal_anchors :
    mktimeVal 100 0 1 0 0 0 = EPOCH_TIME_OFF ∧
    mktimeVal 138 0 19 3 14 7 = 2147483647 ∧
    mktimeVal 206 1 7 6 28 15 = 4294967295 := by
  refine ⟨?_, ?_, ?_⟩ <;> decide

theorem yoe_core_a (doe : Nat) (h1 : 146037 ≤ doe) (h2 : doe < 146097) :
    yoeOf doe = 399 := by
  unfold yoeOf
  omega

set_option maxHeartbeats 1000000 in
theorem month_ok (doy : Nat) (h : doy ≤ 365) :
    (153 * ((5 * doy + 2) / 153) + 2) / 5 ≤ doy ∧
    doy ≤ (153 * ((5 * doy + 2) / 153) + 2) / 5 + 30 ∧
    (5 * doy + 2) / 153 ≤ 11 := by
  set mp := (5 * doy + 2) / 153 with hmp
  have hb : mp ≤ 11 := by omega
  interval_cases mp <;> omega

set_option maxHeartbeats 4000000 in
theorem yoe_ok_b (doe : Nat) (h : doe < 38694) :
    yoeStart (yoeOf doe) ≤ doe ∧ doe < yoeStart (yoeOf doe + 1) ∧
    yoeOf doe ≤ 106 := by
  unfold yoeOf yoeStart
  set yoe := (doe - doe / 1460 + doe / 36524 - doe / 146096) / 365 with hyoe
  have hb : yoe ≤ 106 := by omega
  interval_cases yoe <;> omega

set_option maxHeartbeats 4000000 in
theorem civil_ok (z : Nat) (h1 : 10957 ≤ z) (h2 : z < 49711) :
    daysFromCivil (civilFromDays z).1 (civilFromDays z).2.1 (civilFromDays z).2.2 = z ∧
    1 ≤ (civilFromDays z).2.1 ∧ (civilFromDays z).2.1 ≤ 12 ∧
    1 ≤ (civilFromDays z).2.2 ∧ (civilFromDays z).2.2 ≤ 31 ∧
    2000 ≤ (civilFromDays z).1 ∧ (z < 47482 → (civilFromDays z).1 ≤ 2099) := by
  by_cases hera4 : z + 719468 < 730485
  · have h4 : (z + 719468) / 146097 = 4 := by omega
    have hyoe : yoeOf ((z + 719468) % 146097) = 399 :=
      yoe_core_a ((z + 719468) % 146097) (by omega) (by omega)
    have hmo := month_ok ((z + 719468) % 146097 - (365 * 399 + 399 / 4 - 399 / 100))
      (by omega)
    simp only [civilFromDays, yearOfDays, monthOfDays, dayOfDays, mpOf, doyOf,
      eraOf, doeOf, daysFromCivil, yoeStart, h4, hyoe] at hmo ⊢
    set doyv := (z + 719468) % 146097 - (365 * 399 + 399 / 4 - 399 / 100) with hdoyv
    set mpv := (5 * doyv + 2) / 153 with hmpv
    have hmp11 : mpv ≤ 11 := hmo.2.2
    interval_cases mpv <;> split_ifs <;> omega
  · have h5 : (z + 719468) / 146097 = 5 := by omega
    have hb := yoe_ok_b ((z + 719468) % 146097) (by omega)
    have hdoy365 : (z + 719468) % 146097 - yoeStart (yoeOf ((z + 719468) % 146097)) ≤ 365 := by
      have hb2 := hb
      unfold yoeStart at hb2 ⊢
      omega
    have hmo := month_ok
      ((z + 719468) % 146097 - yoeStart (yoeOf ((z + 719468) % 146097))) hdoy365
    simp only [civilFromDays, yearOfDays, monthOfDays, dayOfDays, mpOf, doyOf,
      eraOf, doeOf, daysFromCivil, yoeStart, h5] at hmo hb ⊢
    set yv := yoeOf ((z + 719468) % 146097) with hyv
    have hyv106 : yv ≤ 106 := hb.2.2
    have e1 : (5 * 400 + yv + 0) / 400 = 5 := by omega
    have e2 : (5 * 400 + yv + 0) % 400 = yv := by omega
    have e3 : (5 * 400 + yv + 1 - 1) / 400 = 5 := by omega
    have e4 : (5 * 400 + yv + 1 - 1) % 400 = yv := by omega
    set doyv := (z + 719468) % 146097 - (365 * yv + yv / 4 - yv / 100) with hdoyv
    set mpv := (5 * doyv + 2) / 153 with hmpv
    have hmp11 : mpv ≤ 11 := hmo.2.2
    clear hdoy365
    interval_cases mpv <;> split_ifs <;>
      (try simp only [e1, e2, e3, e4]) <;> omega

/-- Helper: `setEpoch` followed by `getEpoch` returns the original
timestamp, for every `uint32_t` timestamp at or after `EPOCH_TIME_OFF`. -/
theorem setEpoch_getEpoch_val (s : RTC) (ts ss : Nat)
    (h1 : EPOCH_TIME_OFF ≤ ts) (h2 : ts < UINT32_MOD) :
    (getEpoch (setEpoch s ts ss)).2.1 = ts := by
  have h1' : 946684800 ≤ ts := h1
  have h2' : ts < 4294967296 := h2
  have hz := civil_ok (ts / 86400) (by omega) (by omega)
  have hif : (if ts < EPOCH_TIME_OFF then EPOCH_TIME_OFF else ts) = ts := by
    unfold EPOCH_TIME_OFF
    split <;> omega
  obtain ⟨hrt, hm1, hm12, hd1, hd31, hy2000, _⟩ := hz
  simp only [setEpoch, getEpoch, syncTime, syncDate, RTC_SetTime, RTC_SetDate,
    gmtimeOf, mktimeVal, hif]
  have hy : 1900 + ((civilFromDays (ts / 86400)).1 - 1900 - EPOCH_TIME_YEAR_OFF
      + EPOCH_TIME_YEAR_OFF) = (civilFromDays (ts / 86400)).1 := by
    unfold EPOCH_TIME_YEAR_OFF
    omega
  have hmm : (civilFromDays (ts / 86400)).2.1 - 1 + 1 = (civilFromDays (ts / 86400)).2.1 := by
    omega
  rw [hy, hmm, hmm, hrt]
  unfold UINT32_MOD
  omega

/-! ## Claims -/

/-- Claim C1 counterexample: out-of-range inputs are not clamped to the
nearest bound.  From a hardware state with seconds 10 and month 6,
`setSeconds 75` leaves the cached seconds at 10 (not 59) and `setMonth 0`
leaves the cached month at 6 (not 1). -/
theorem claim_C1_counterexample :
    (setSeconds sampleState 75).rtc._seconds = 10 ∧
    ¬((setSeconds sampleState 75).rtc._seconds = 59) ∧
    (setMonth sampleState 0).rtc._month = 6 ∧
    ¬((setMonth sampleState 0).rtc._month = 1) := by
  refine ⟨?_, ?_, ?_, ?_⟩ <;> decide

/-- Claim C1 (amended): a set accessor that receives an out-of-range input
does not clamp it; it ignores the input, so the stored field keeps the
value just synchronized from the hardware. -/
theorem claim_C1 (s : RTC) (p : AM_PM)
    (seconds minutes hours subSeconds day month year : Nat)
    (hsec : 60 ≤ seconds) (hmin : 60 ≤ minutes) (hh : 24 ≤ hours)
    (hss : 1000 ≤ subSeconds) (hd : day = 0 ∨ 31 < day)
    (hm : month = 0 ∨ 12 < month) (hy : 100 ≤ year) :
    (setSeconds s seconds).rtc._seconds = s.hw.hwSeconds ∧
    (setMinutes s minutes).rtc._minutes = s.hw.hwMinutes ∧
    (setHours s hours p).rtc._hours = s.hw.hwHours ∧
    (setSubSeconds s subSeconds).rtc._subSeconds = s.hw.hwSubSeconds ∧
    (setDay s day).rtc._day = s.hw.hwDay ∧
    (setMonth s month).rtc._month = s.hw.hwMonth ∧
    (setYear s year).rtc._year = s.hw.hwYear := by
  refine ⟨?_, ?_, ?_, ?_, ?_, ?_, ?_⟩ <;>
    simp only [setSeconds, setMinutes, setHours, setSubSeconds, setDay,
      setMonth, setYear, syncTime, syncDate, RTC_SetTime, RTC_SetDate] <;>
    split_ifs <;> first | rfl | omega

/-- Claim C1 witness: the amended theorem at concrete out-of-range inputs. -/
theorem claim_C1_witness :
    (setSeconds sampleState 60).rtc._seconds = sampleState.hw.hwSeconds ∧
    (setMinutes sampleState 77).rtc._minutes = sampleState.hw.hwMinutes ∧
    (setHours sampleState 30 AM_PM.AM).rtc._hours = sampleState.hw.hwHours ∧
    (setSubSeconds sampleState 1234).rtc._subSeconds = sampleState.hw.hwSubSeconds ∧
    (setDay sampleState 0).rtc._day = sampleState.hw.hwDay ∧
    (setMonth sampleState 13).rtc._month = sampleState.hw.hwMonth ∧
    (setYear sampleState 200).rtc._year = sampleState.hw.hwYear :=
  claim_C1 sampleState AM_PM.AM 60 77 30 1234 0 13 200 (by decide) (by decide)
    (by decide) (by decide) (Or.inl rfl) (Or.inr (by decide)) (by decide)

/-- Claim C2 counterexample: `setAlarmSeconds` performs no HAL call at all,
so the value is not written through to the hardware before returning; from
a hardware state whose alarm seconds are 11, `setAlarmSeconds 5` leaves the
whole hardware state unchanged. -/
theorem claim_C2_counterexample :
    (setAlarmSeconds sampleState 5).hw = sampleState.hw ∧
    ¬((setAlarmSeconds sampleState 5).hw.hwAlarmSeconds = 5) := by
  refine ⟨?_, ?_⟩ <;> decide

/-- Claim C2 (amended): the time and date set accessors do write their
validated value through to the hardware (`RTC_SetTime` / `RTC_SetDate`),
but the alarm set accessors only update the cached copy and leave the
hardware untouched; the cached alarm fields reach the hardware only when
`enableAlarm` is called with a match other than `MATCH_OFF`. -/
theorem claim_C2 (s : RTC) (p : AM_PM) (x : Nat) (mt : Alarm_Match)
    (hmt : mt ≠ Alarm_Match.MATCH_OFF) :
    (setSeconds s x).hw.hwSeconds = (setSeconds s x).rtc._seconds ∧
    (setMinutes s x).hw.hwMinutes = (setMinutes s x).rtc._minutes ∧
    (setHours s x p).hw.hwHours = (setHours s x p).rtc._hours ∧
    (setSubSeconds s x).hw.hwSubSeconds = (setSubSeconds s x).rtc._subSeconds ∧
    (setDay s x).hw.hwDay = (setDay s x).rtc._day ∧
    (setMonth s x).hw.hwMonth = (setMonth s x).rtc._month ∧
    (setYear s x).hw.hwYear = (setYear s x).rtc._year ∧
    (setAlarmSeconds s x).hw = s.hw ∧
    (setAlarmMinutes s x).hw = s.hw ∧
    (setAlarmHours s x p).hw = s.hw ∧
    (setAlarmDay s x).hw = s.hw ∧
    (setAlarmSubSeconds s x).hw = s.hw ∧
    (enableAlarm s mt).hw.hwAlarmDay = s.rtc._alarmDay ∧
    (enableAlarm s mt).hw.hwAlarmHours = s.rtc._alarmHours ∧
    (enableAlarm s mt).hw.hwAlarmMinutes = s.rtc._alarmMinutes ∧
    (enableAlarm s mt).hw.hwAlarmSeconds = s.rtc._alarmSeconds ∧
    (enableAlarm s mt).hw.hwAlarmSubSeconds = s.rtc._alarmSubSeconds ∧
    (enableAlarm s mt).hw.hwAlarmEnabled = true := by
  refine ⟨?_, ?_, ?_, ?_, ?_, ?_, ?_, ?_, ?_, ?_, ?_, ?_, ?_, ?_, ?_, ?_, ?_, ?_⟩ <;>
    first
    | (simp only [setSeconds, setMinutes, setHours, setSubSeconds, setDay,
        setMonth, setYear, setAlarmSeconds, setAlarmMinutes, setAlarmHours,
        setAlarmDay, setAlarmSubSeconds, syncTime, syncDate, RTC_SetTime,
        RTC_SetDate] <;> split_ifs <;> rfl)
    | (cases mt <;> first | exact absurd rfl hmt | rfl)

/-- Claim C2 witness: the amended theorem at a concrete state and inputs. -/
theorem claim_C2_witness :
    (setSeconds sampleState 7).hw.hwSeconds = (setSeconds sampleState 7).rtc._seconds ∧
    (setMinutes sampleState 7).hw.hwMinutes = (setMinutes sampleState 7).rtc._minutes ∧
    (setHours sampleState 7 AM_PM.PM).hw.hwHours = (setHours sampleState 7 AM_PM.PM).rtc._hours ∧
    (setSubSeconds sampleState 7).hw.hwSubSeconds = (setSubSeconds sampleState 7).rtc._subSeconds ∧
    (setDay sampleState 7).hw.hwDay = (setDay sampleState 7).rtc._day ∧
    (setMonth sampleState 7).hw.hwMonth = (setMonth sampleState 7).rtc._month ∧
    (setYear sampleState 7).hw.hwYear = (setYear sampleState 7).rtc._year ∧
    (setAlarmSeconds sampleState 7).hw = sampleState.hw ∧
    (setAlarmMinutes sampleState 7).hw = sampleState.hw ∧
    (setAlarmHours sampleState 7 AM_PM.PM).hw = sampleState.hw ∧
    (setAlarmDay sampleState 7).hw = sampleState.hw ∧
    (setAlarmSubSeconds sampleState 7).hw = sampleState.hw ∧
    (enableAlarm sampleState Alarm_Match.MATCH_SS).hw.hwAlarmDay = sampleState.rtc._alarmDay ∧
    (enableAlarm sampleState Alarm_Match.MATCH_SS).hw.hwAlarmHours = sampleState.rtc._alarmHours ∧
    (enableAlarm sampleState Alarm_Match.MATCH_SS).hw.hwAlarmMinutes = sampleState.rtc._alarmMinutes ∧
    (enableAlarm sampleState Alarm_Match.MATCH_SS).hw.hwAlarmSeconds = sampleState.rtc._alarmSeconds ∧
    (enableAlarm sampleState Alarm_Match.MATCH_SS).hw.hwAlarmSubSeconds = sampleState.rtc._alarmSubSeconds ∧
    (enableAlarm sampleState Alarm_Match.MATCH_SS).hw.hwAlarmEnabled = true :=
  claim_C2 sampleState AM_PM.PM 7 Alarm_Match.MATCH_SS (by decide)

/-- Claim C3 counterexample: `getAlarmMonth` and `getAlarmYear` do not read
hardware state; on a state whose cached alarm fields differ from the
hardware alarm registers they return the constant 0 and leave the cache
stale (a real synchronization would have changed it). -/
theorem claim_C3_counterexample :
    (getAlarmMonth sampleState).2 = 0 ∧
    (getAlarmMonth sampleState).1 = sampleState ∧
    (getAlarmYear sampleState).2 = 0 ∧
    (getAlarmYear sampleState).1 = sampleState ∧
    ¬(syncAlarmTime sampleState = sampleState) := by
  refine ⟨?_, ?_, ?_, ?_, ?_⟩ <;> decide

/-- Claim C3 (amended): every get accessor except `getAlarmMonth` and
`getAlarmYear` synchronizes the cache from the hardware before returning
it, and the value returned is the hardware one; `getAlarmMonth` and
`getAlarmYear` return the constant 0 without touching hardware or cache. -/
theorem claim_C3 (s : RTC) :
    (getSubSeconds s).2 = s.hw.hwSubSeconds ∧
    (getSeconds s).2 = s.hw.hwSeconds ∧
    (getMinutes s).2 = s.hw.hwMinutes ∧
    (getHours s).2.1 = s.hw.hwHours ∧
    (getWeekDay s).2 = s.hw.hwWday ∧
    (getDay s).2 = s.hw.hwDay ∧
    (getMonth s).2 = s.hw.hwMonth ∧
    (getYear s).2 = s.hw.hwYear ∧
    (getAlarmSubSeconds s).2 = s.hw.hwAlarmSubSeconds ∧
    (getAlarmSeconds s).2 = s.hw.hwAlarmSeconds ∧
    (getAlarmMinutes s).2 = s.hw.hwAlarmMinutes ∧
    (getAlarmHours s).2.1 = s.hw.hwAlarmHours ∧
    (getAlarmDay s).2 = s.hw.hwAlarmDay ∧
    (getSubSeconds s).1 = syncTime s ∧
    (getSeconds s).1 = syncTime s ∧
    (getMinutes s).1 = syncTime s ∧
    (getHours s).1 = syncTime s ∧
    (getTime s).1 = syncTime s ∧
    (getWeekDay s).1 = syncDate s ∧
    (getDay s).1 = syncDate s ∧
    (getMonth s).1 = syncDate s ∧
    (getYear s).1 = syncDate s ∧
    (getDate s).1 = syncDate s ∧
    (getAlarmSubSeconds s).1 = syncAlarmTime s ∧
    (getAlarmSeconds s).1 = syncAlarmTime s ∧
    (getAlarmMinutes s).1 = syncAlarmTime s ∧
    (getAlarmHours s).1 = syncAlarmTime s ∧
    (getAlarmDay s).1 = syncAlarmTime s ∧
    (getAlarmMonth s).2 = 0 ∧
    (getAlarmMonth s).1 = s ∧
    (getAlarmYear s).2 = 0 ∧
    (getAlarmYear s).1 = s :=
  ⟨rfl, rfl, rfl, rfl, rfl, rfl, rfl, rfl, rfl, rfl, rfl, rfl, rfl, rfl, rfl,
   rfl, rfl, rfl, rfl, rfl, rfl, rfl, rfl, rfl, rfl, rfl, rfl, rfl, rfl, rfl,
   rfl, rfl⟩

/-- Claim C5: `getY2kEpoch` is `getEpoch` shifted by `EPOCH_TIME_OFF =
946684800` (plain subtraction whenever `getEpoch` is at least the offset,
and in general the `uint32_t` subtraction modulo 2^32), it leaves the state
exactly as `getEpoch` does, and `setY2kEpoch ts` is exactly
`setEpoch (ts + 946684800)` with the addition wrapping modulo 2^32. -/
theorem claim_C5 (s : RTC) (ts : Nat) (hts : ts < UINT32_MOD) :
    (getY2kEpoch s).2 = ((getEpoch s).2.1 + (UINT32_MOD - EPOCH_TIME_OFF)) % UINT32_MOD ∧
    (EPOCH_TIME_OFF ≤ (getEpoch s).2.1 →
      (getY2kEpoch s).2 = (getEpoch s).2.1 - EPOCH_TIME_OFF) ∧
    (getY2kEpoch s).1 = (getEpoch s).1 ∧
    setY2kEpoch s ts = setEpoch s ((ts + EPOCH_TIME_OFF) % UINT32_MOD) 0 := by
  refine ⟨rfl, ?_, rfl, rfl⟩
  intro hle
  have hv : (getEpoch s).2.1 < UINT32_MOD := Nat.mod_lt _ (by decide)
  have hy2 : (getY2kEpoch s).2
      = ((getEpoch s).2.1 + (UINT32_MOD - EPOCH_TIME_OFF)) % UINT32_MOD := rfl
  rw [hy2]
  revert hle hv
  unfold UINT32_MOD EPOCH_TIME_OFF
  intro hle hv
  omega

/-- Claim C5 witness: the theorem at a concrete state and timestamp. -/
theorem claim_C5_witness :
    (getY2kEpoch sampleState).2 =
      ((getEpoch sampleState).2.1 + (UINT32_MOD - EPOCH_TIME_OFF)) % UINT32_MOD ∧
    (EPOCH_TIME_OFF ≤ (getEpoch sampleState).2.1 →
      (getY2kEpoch sampleState).2 = (getEpoch sampleState).2.1 - EPOCH_TIME_OFF) ∧
    (getY2kEpoch sampleState).1 = (getEpoch sampleState).1 ∧
    setY2kEpoch sampleState 12345 = setEpoch sampleState ((12345 + EPOCH_TIME_OFF) % UINT32_MOD) 0 :=
  claim_C5 sampleState 12345 (by decide)

/-- Claim C6: epoch inputs below the year-2000 anchor are floored at it:
for every `ts < EPOCH_TIME_OFF`, `setEpoch` and `setAlarmEpoch` behave
exactly as at `EPOCH_TIME_OFF`. -/
theorem claim_C6 (s : RTC) (ts ss : Nat) (mt : Alarm_Match)
    (h : ts < EPOCH_TIME_OFF) :
    setEpoch s ts ss = setEpoch s EPOCH_TIME_OFF ss ∧
    setAlarmEpoch s ts mt ss = setAlarmEpoch s EPOCH_TIME_OFF mt ss := by
  have e1 : (if ts < EPOCH_TIME_OFF then EPOCH_TIME_OFF else ts) = EPOCH_TIME_OFF :=
    if_pos h
  have e2 : (if EPOCH_TIME_OFF < EPOCH_TIME_OFF then EPOCH_TIME_OFF else EPOCH_TIME_OFF)
      = EPOCH_TIME_OFF := by
    split <;> rfl
  constructor
  · unfold setEpoch
    rw [e1, e2]
  · unfold setAlarmEpoch
    rw [e1, e2]

/-- Claim C6 witness: the theorem at `ts = 0`. -/
theorem claim_C6_witness :
    setEpoch sampleState 0 3 = setEpoch sampleState EPOCH_TIME_OFF 3 ∧
    setAlarmEpoch sampleState 0 Alarm_Match.MATCH_SS 3 =
      setAlarmEpoch sampleState EPOCH_TIME_OFF Alarm_Match.MATCH_SS 3 :=
  claim_C6 sampleState 0 3 Alarm_Match.MATCH_SS (by decide)

/-- Claim C7: epoch-to-calendar conversion round-trips: for every
`uint32_t` timestamp at or after the year-2000 anchor, `setEpoch ts`
followed by `getEpoch` returns `ts`; the calendar fields in between come
from the UTC Gregorian decomposition, with the cached year stored as years
since 2000 and the cached month in [1,12]. -/
theorem claim_C7 (s : RTC) (ts : Nat)
    (h1 : EPOCH_TIME_OFF ≤ ts) (h2 : ts < UINT32_MOD) :
    (getEpoch (setEpoch s ts 0)).2.1 = ts ∧
    (setEpoch s ts 0).rtc._year + 2000 = (civilFromDays (ts / 86400)).1 ∧
    (setEpoch s ts 0).rtc._month = (civilFromDays (ts / 86400)).2.1 ∧
    (setEpoch s ts 0).rtc._day = (civilFromDays (ts / 86400)).2.2 ∧
    1 ≤ (setEpoch s ts 0).rtc._month ∧ (setEpoch s ts 0).rtc._month ≤ 12 ∧
    1 ≤ (setEpoch s ts 0).rtc._day ∧ (setEpoch s ts 0).rtc._day ≤ 31 := by
  have h1' : 946684800 ≤ ts := h1
  have h2' : ts < 4294967296 := h2
  have hz := civil_ok (ts / 86400) (by omega) (by omega)
  obtain ⟨hrt, hm1, hm12, hd1, hd31, hy2000, _⟩ := hz
  have hif : (if ts < EPOCH_TIME_OFF then EPOCH_TIME_OFF else ts) = ts := by
    unfold EPOCH_TIME_OFF
    split <;> omega
  refine ⟨setEpoch_getEpoch_val s ts 0 h1 h2, ?_, ?_, ?_, ?_, ?_, ?_, ?_⟩ <;>
    (simp only [setEpoch, gmtimeOf, hif, EPOCH_TIME_YEAR_OFF]) <;> omega

/-- Claim C7 witness: the round-trip at the anchor timestamp itself. -/
theorem claim_C7_witness :
    (getEpoch (setEpoch sampleState EPOCH_TIME_OFF 0)).2.1 = EPOCH_TIME_OFF ∧
    (setEpoch sampleState EPOCH_TIME_OFF 0).rtc._year + 2000 =
      (civilFromDays (EPOCH_TIME_OFF / 86400)).1 ∧
    (setEpoch sampleState EPOCH_TIME_OFF 0).rtc._month =
      (civilFromDays (EPOCH_TIME_OFF / 86400)).2.1 ∧
    (setEpoch sampleState EPOCH_TIME_OFF 0).rtc._day =
      (civilFromDays (EPOCH_TIME_OFF / 86400)).2.2 ∧
    1 ≤ (setEpoch sampleState EPOCH_TIME_OFF 0).rtc._month ∧
    (setEpoch sampleState EPOCH_TIME_OFF 0).rtc._month ≤ 12 ∧
    1 ≤ (setEpoch sampleState EPOCH_TIME_OFF 0).rtc._day ∧
    (setEpoch sampleState EPOCH_TIME_OFF 0).rtc._day ≤ 31 :=
  claim_C7 sampleState EPOCH_TIME_OFF (Nat.le_refl _) (by decide)

/-- Claim C8: `enableAlarm match` always records `match` in the cached
alarm match field; for `MATCH_OFF` it stops the hardware alarm, and for
every other match value it starts the hardware alarm from the cached alarm
day, hours, minutes, seconds, subseconds, period and that match value.
`disableAlarm` just stops the hardware alarm. -/
theorem claim_C8 (s : RTC) (mt : Alarm_Match) :
    (enableAlarm s mt).rtc._alarmMatch = mt ∧
    (mt = Alarm_Match.MATCH_OFF →
      (enableAlarm s mt).hw = RTC_StopAlarm s.hw) ∧
    (mt ≠ Alarm_Match.MATCH_OFF →
      (enableAlarm s mt).hw =
        RTC_StartAlarm s.hw s.rtc._alarmDay s.rtc._alarmHours
          s.rtc._alarmMinutes s.rtc._alarmSeconds s.rtc._alarmSubSeconds
          s.rtc._alarmPeriod mt) ∧
    disableAlarm s = { s with hw := RTC_StopAlarm s.hw } := by
  refine ⟨?_, ?_, ?_, rfl⟩ <;> cases mt <;>
    first
    | (intro hmt; rfl)
    | (intro hmt; exact absurd rfl hmt)
    | (intro hmt; exact absurd hmt (by decide))
    | rfl

/-- Claim C8 witness: the theorem at a concrete state, for `MATCH_SS` and
for `MATCH_OFF`. -/
theorem claim_C8_witness :
    ((enableAlarm sampleState Alarm_Match.MATCH_SS).rtc._alarmMatch =
      Alarm_Match.MATCH_SS ∧
     (enableAlarm sampleState Alarm_Match.MATCH_SS).hw =
        RTC_StartAlarm sampleState.hw sampleState.rtc._alarmDay
          sampleState.rtc._alarmHours sampleState.rtc._alarmMinutes
          sampleState.rtc._alarmSeconds sampleState.rtc._alarmSubSeconds
          sampleState.rtc._alarmPeriod Alarm_Match.MATCH_SS) ∧
    (enableAlarm sampleState Alarm_Match.MATCH_OFF).hw =
      RTC_StopAlarm sampleState.hw :=
  ⟨⟨(claim_C8 sampleState Alarm_Match.MATCH_SS).1,
    (claim_C8 sampleState Alarm_Match.MATCH_SS).2.2.1 (by decide)⟩,
   (claim_C8 sampleState Alarm_Match.MATCH_OFF).2.1 rfl⟩

/-- Claim C9: `getAlarmMonth` and `getAlarmYear` always return 0 and leave
the whole state unchanged; `setAlarmMonth` and `setAlarmYear` change
nothing at all; `setAlarmDate` ignores its month and year parameters and
behaves exactly as `setAlarmDay` on the day parameter. -/
theorem claim_C9 (s : RTC) (day month year : Nat) :
    (getAlarmMonth s).2 = 0 ∧ (getAlarmMonth s).1 = s ∧
    (getAlarmYear s).2 = 0 ∧ (getAlarmYear s).1 = s ∧
    setAlarmMonth s month = s ∧ setAlarmYear s year = s ∧
    setAlarmDate s day month year = setAlarmDay s day :=
  ⟨rfl, rfl, rfl, rfl, rfl, rfl, rfl⟩

/-- Claim C10: `setEpoch` stores its subseconds argument in the cache
unconditionally (even values of 1000 and above), while `setSubSeconds`
and `setAlarmSubSeconds` store their argument only when it is strictly
below 1000 (otherwise the cached value — freshly synchronized for
`setSubSeconds`, unchanged for `setAlarmSubSeconds` — is kept). -/
theorem claim_C10 (s : RTC) (ts ss : Nat) :
    (setEpoch s ts ss).rtc._subSeconds = ss ∧
    (ss < 1000 →
      (setSubSeconds s ss).rtc._subSeconds = ss ∧
      (setAlarmSubSeconds s ss).rtc._alarmSubSeconds = ss) ∧
    (1000 ≤ ss →
      (setSubSeconds s ss).rtc._subSeconds = s.hw.hwSubSeconds ∧
      (setAlarmSubSeconds s ss).rtc._alarmSubSeconds = s.rtc._alarmSubSeconds) := by
  refine ⟨rfl, ?_, ?_⟩ <;>
    (intro hss
     unfold setSubSeconds setAlarmSubSeconds syncTime RTC_SetTime
     constructor <;> split_ifs <;> first | rfl | omega)

/-- Claim C10 witness: the theorem at a concrete state, at subseconds 500
and 1000. -/
theorem claim_C10_witness :
    (setEpoch sampleState 0 1000).rtc._subSeconds = 1000 ∧
    ((setSubSeconds sampleState 500).rtc._subSeconds = 500 ∧
     (setAlarmSubSeconds sampleState 500).rtc._alarmSubSeconds = 500) ∧
    ((setSubSeconds sampleState 1000).rtc._subSeconds = sampleState.hw.hwSubSeconds ∧
     (setAlarmSubSeconds sampleState 1000).rtc._alarmSubSeconds =
       sampleState.rtc._alarmSubSeconds) :=
  ⟨(claim_C10 sampleState 0 1000).1,
   (claim_C10 sampleState 0 500).2.1 (by decide),
   (claim_C10 sampleState 0 1000).2.2 (by decide)⟩

/-! ## Invariant preservation helpers (claim C4) -/

theorem inv_syncTime (s : RTC) (hr : rtcInv s.rtc) (hhw : hwInv s.hw) :
    rtcInv (syncTime s).rtc := by
  unfold rtcInv at hr ⊢
  unfold hwInv at hhw
  simp only [syncTime]
  omega

theorem inv_syncDate (s : RTC) (hr : rtcInv s.rtc) (hhw : hwInv s.hw) :
    rtcInv (syncDate s).rtc := by
  unfold rtcInv at hr ⊢
  unfold hwInv at hhw
  simp only [syncDate]
  omega

theorem inv_syncAlarmTime (s : RTC) (hr : rtcInv s.rtc) :
    rtcInv (syncAlarmTime s).rtc := hr

theorem inv_setSubSeconds (s : RTC) (x : Nat) (hr : rtcInv s.rtc)
    (hhw : hwInv s.hw) : rtcInv (setSubSeconds s x).rtc := by
  unfold rtcInv at hr ⊢
  unfold hwInv at hhw
  simp only [setSubSeconds, syncTime, RTC_SetTime]
  split_ifs <;> (try dsimp only) <;> omega

theorem inv_setSeconds (s : RTC) (x : Nat) (hr : rtcInv s.rtc)
    (hhw : hwInv s.hw) : rtcInv (setSeconds s x).rtc := by
  unfold rtcInv at hr ⊢
  unfold hwInv at hhw
  simp only [setSeconds, syncTime, RTC_SetTime]
  split_ifs <;> (try dsimp only) <;> omega

theorem inv_setMinutes (s : RTC) (x : Nat) (hr : rtcInv s.rtc)
    (hhw : hwInv s.hw) : rtcInv (setMinutes s x).rtc := by
  unfold rtcInv at hr ⊢
  unfold hwInv at hhw
  simp only [setMinutes, syncTime, RTC_SetTime]
  split_ifs <;> (try dsimp only) <;> omega

theorem inv_setHours (s : RTC) (x : Nat) (p : AM_PM) (hr : rtcInv s.rtc)
    (hhw : hwInv s.hw) : rtcInv (setHours s x p).rtc := by
  unfold rtcInv at hr ⊢
  unfold hwInv at hhw
  simp only [setHours, syncTime, RTC_SetTime]
  split_ifs <;> (try dsimp only) <;> omega

theorem inv_setTime (s : RTC) (h m sec ss : Nat) (p : AM_PM)
    (hr : rtcInv s.rtc) (hhw : hwInv s.hw) :
    rtcInv (setTime s h m sec ss p).rtc := by
  unfold rtcInv at hr ⊢
  unfold hwInv at hhw
  simp only [setTime, syncTime, RTC_SetTime]
  split_ifs <;> (try dsimp only) <;> omega

theorem inv_setWeekDay (s : RTC) (x : Nat) (hr : rtcInv s.rtc)
    (hhw : hwInv s.hw) : rtcInv (setWeekDay s x).rtc := by
  unfold rtcInv at hr ⊢
  unfold hwInv at hhw
  simp only [setWeekDay, syncDate, RTC_SetDate]
  split_ifs <;> (try dsimp only) <;> omega

theorem inv_setDay (s : RTC) (x : Nat) (hr : rtcInv s.rtc)
    (hhw : hwInv s.hw) : rtcInv (setDay s x).rtc := by
  unfold rtcInv at hr ⊢
  unfold hwInv at hhw
  simp only [setDay, syncDate, RTC_SetDate]
  split_ifs <;> (try dsimp only) <;> omega

theorem inv_setMonth (s : RTC) (x : Nat) (hr : rtcInv s.rtc)
    (hhw : hwInv s.hw) : rtcInv (setMonth s x).rtc := by
  unfold rtcInv at hr ⊢
  unfold hwInv at hhw
  simp only [setMonth, syncDate, RTC_SetDate]
  split_ifs <;> (try dsimp only) <;> omega

theorem inv_setYear (s : RTC) (x : Nat) (hr : rtcInv s.rtc)
    (hhw : hwInv s.hw) : rtcInv (setYear s x).rtc := by
  unfold rtcInv at hr ⊢
  unfold hwInv at hhw
  simp only [setYear, syncDate, RTC_SetDate]
  split_ifs <;> (try dsimp only) <;> omega

theorem inv_setDate (s : RTC) (d mo y : Nat) (hr : rtcInv s.rtc)
    (hhw : hwInv s.hw) : rtcInv (setDate s d mo y).rtc := by
  unfold rtcInv at hr ⊢
  unfold hwInv at hhw
  simp only [setDate, syncDate, RTC_SetDate]
  split_ifs <;> (try dsimp only) <;> omega

theorem inv_setDate4 (s : RTC) (wd d mo y : Nat) (hr : rtcInv s.rtc)
    (hhw : hwInv s.hw) : rtcInv (setDate4 s wd d mo y).rtc := by
  unfold rtcInv at hr ⊢
  unfold hwInv at hhw
  simp only [setDate4, syncDate, RTC_SetDate]
  split_ifs <;> (try dsimp only) <;> omega

theorem inv_setAlarmSubSeconds (s : RTC) (x : Nat) (hr : rtcInv s.rtc) :
    rtcInv (setAlarmSubSeconds s x).rtc := by
  unfold setAlarmSubSeconds
  split_ifs <;> exact hr

theorem inv_setAlarmSeconds (s : RTC) (x : Nat) (hr : rtcInv s.rtc) :
    rtcInv (setAlarmSeconds s x).rtc := by
  unfold setAlarmSeconds
  split_ifs <;> exact hr

theorem inv_setAlarmMinutes (s : RTC) (x : Nat) (hr : rtcInv s.rtc) :
    rtcInv (setAlarmMinutes s x).rtc := by
  unfold setAlarmMinutes
  split_ifs <;> exact hr

theorem inv_setAlarmHours (s : RTC) (x : Nat) (p : AM_PM) (hr : rtcInv s.rtc) :
    rtcInv (setAlarmHours s x p).rtc := by
  unfold setAlarmHours
  dsimp only
  split_ifs <;> exact hr

theorem inv_setAlarmDay (s : RTC) (x : Nat) (hr : rtcInv s.rtc) :
    rtcInv (setAlarmDay s x).rtc := by
  unfold setAlarmDay
  split_ifs <;> exact hr

theorem inv_setAlarmTime (s : RTC) (h m sec ss : Nat) (p : AM_PM)
    (hr : rtcInv s.rtc) : rtcInv (setAlarmTime s h m sec ss p).rtc :=
  inv_setAlarmSubSeconds _ _
    (inv_setAlarmSeconds _ _ (inv_setAlarmMinutes _ _ (inv_setAlarmHours _ _ _ hr)))

theorem inv_enableAlarm (s : RTC) (mt : Alarm_Match) (hr : rtcInv s.rtc) :
    rtcInv (enableAlarm s mt).rtc := by
  cases mt <;> exact hr

theorem inv_disableAlarm (s : RTC) (hr : rtcInv s.rtc) :
    rtcInv (disableAlarm s).rtc := hr

theorem inv_setAlarmEpoch (s : RTC) (ts ss : Nat) (mt : Alarm_Match)
    (hr : rtcInv s.rtc) : rtcInv (setAlarmEpoch s ts mt ss).rtc :=
  inv_enableAlarm _ _
    (inv_setAlarmSubSeconds _ _
      (inv_setAlarmSeconds _ _
        (inv_setAlarmMinutes _ _
          (inv_setAlarmHours _ _ _ (inv_setAlarmDay _ _ hr)))))

theorem inv_beginRTC (s : RTC) (b1 b2 : Bool) (f : Hour_Format)
    (hr : rtcInv s.rtc) (hhw : hwInv s.hw) :
    rtcInv (beginRTC s b1 f b2).rtc := by
  unfold rtcInv at hr ⊢
  unfold hwInv at hhw
  simp only [beginRTC, syncTime, syncDate]
  split_ifs <;> (try dsimp only) <;> omega

theorem inv_setEpoch (s : RTC) (ts ss : Nat) (hss : ss ≤ 999)
    (hts : ts < 4102444800) : rtcInv (setEpoch s ts ss).rtc := by
  have hoff : EPOCH_TIME_OFF = 946684800 := rfl
  have hb1 : 946684800 ≤ (if ts < EPOCH_TIME_OFF then EPOCH_TIME_OFF else ts) := by
    rw [hoff]
    split <;> omega
  have hb2 : (if ts < EPOCH_TIME_OFF then EPOCH_TIME_OFF else ts) < 4102444800 := by
    rw [hoff]
    split <;> omega
  have hz := civil_ok ((if ts < EPOCH_TIME_OFF then EPOCH_TIME_OFF else ts) / 86400)
    (by omega) (by omega)
  obtain ⟨_, hm1, hm12, hd1, hd31, hy2000, hy2099⟩ := hz
  have hy99 := hy2099 (by omega)
  unfold rtcInv
  simp only [setEpoch, gmtimeOf, EPOCH_TIME_YEAR_OFF]
  omega

/-- Claim C4 counterexample: the range invariants are not preserved by
every operation: from an in-range state (cache and hardware),
`setEpoch EPOCH_TIME_OFF 1000` stores subseconds 1000, outside [0,999]. -/
theorem claim_C4_counterexample :
    rtcInv sampleState.rtc ∧ hwInv sampleState.hw ∧
    (setEpoch sampleState EPOCH_TIME_OFF 1000).rtc._subSeconds = 1000 ∧
    ¬ rtcInv (setEpoch sampleState EPOCH_TIME_OFF 1000).rtc := by
  refine ⟨?_, ?_, ?_, ?_⟩ <;> decide

/-- Claim C4 (amended): when the cached fields are in range and the
hardware sync functions return in-range values, every modelled public
operation preserves the range invariants, except that `setEpoch` (and
`setY2kEpoch` through it) requires its subseconds argument to be at most
999 (it is stored unchecked) and its timestamp to fall before 2100-01-01
(later timestamps store a year above 99). -/
theorem claim_C4 (s : RTC) (hr : rtcInv s.rtc) (hhw : hwInv s.hw)
    (p : AM_PM) (f : Hour_Format) (b1 b2 : Bool) (mt : Alarm_Match)
    (x h m sec ss wd d mo y ats ass ts ss2 y2ts : Nat)
    (hss2 : ss2 ≤ 999) (hts : ts < 4102444800)
    (hy2 : y2ts + EPOCH_TIME_OFF < 4102444800) :
    rtcInv (syncTime s).rtc ∧ rtcInv (syncDate s).rtc ∧
    rtcInv (syncAlarmTime s).rtc ∧
    rtcInv (setSubSeconds s x).rtc ∧ rtcInv (setSeconds s x).rtc ∧
    rtcInv (setMinutes s x).rtc ∧ rtcInv (setHours s x p).rtc ∧
    rtcInv (setTime s h m sec ss p).rtc ∧
    rtcInv (setWeekDay s x).rtc ∧ rtcInv (setDay s x).rtc ∧
    rtcInv (setMonth s x).rtc ∧ rtcInv (setYear s x).rtc ∧
    rtcInv (setDate s d mo y).rtc ∧ rtcInv (setDate4 s wd d mo y).rtc ∧
    rtcInv (setAlarmSubSeconds s x).rtc ∧ rtcInv (setAlarmSeconds s x).rtc ∧
    rtcInv (setAlarmMinutes s x).rtc ∧ rtcInv (setAlarmHours s x p).rtc ∧
    rtcInv (setAlarmTime s h m sec ss p).rtc ∧ rtcInv (setAlarmDay s x).rtc ∧
    rtcInv (setAlarmMonth s x).rtc ∧ rtcInv (setAlarmYear s x).rtc ∧
    rtcInv (setAlarmDate s d mo y).rtc ∧
    rtcInv (enableAlarm s mt).rtc ∧ rtcInv (disableAlarm s).rtc ∧
    rtcInv (setAlarmEpoch s ats mt ass).rtc ∧
    rtcInv (beginRTC s b1 f b2).rtc ∧
    rtcInv (setEpoch s ts ss2).rtc ∧
    rtcInv (setY2kEpoch s y2ts).rtc :=
  ⟨inv_syncTime s hr hhw, inv_syncDate s hr hhw, inv_syncAlarmTime s hr,
   inv_setSubSeconds s x hr hhw, inv_setSeconds s x hr hhw,
   inv_setMinutes s x hr hhw, inv_setHours s x p hr hhw,
   inv_setTime s h m sec ss p hr hhw,
   inv_setWeekDay s x hr hhw, inv_setDay s x hr hhw, inv_setMonth s x hr hhw,
   inv_setYear s x hr hhw, inv_setDate s d mo y hr hhw,
   inv_setDate4 s wd d mo y hr hhw,
   inv_setAlarmSubSeconds s x hr, inv_setAlarmSeconds s x hr,
   inv_setAlarmMinutes s x hr, inv_setAlarmHours s x p hr,
   inv_setAlarmTime s h m sec ss p hr, inv_setAlarmDay s x hr,
   hr, hr, inv_setAlarmDay s d hr,
   inv_enableAlarm s mt hr, inv_disableAlarm s hr,
   inv_setAlarmEpoch s ats ass mt hr,
   inv_beginRTC s b1 b2 f hr hhw,
   inv_setEpoch s ts ss2 hss2 hts,
   inv_setEpoch s ((y2ts + EPOCH_TIME_OFF) % UINT32_MOD) 0 (by omega)
     (by simp only [EPOCH_TIME_OFF, UINT32_MOD] at hy2 ⊢; omega)⟩

/-- Claim C4 witness: the amended theorem at a concrete in-range state and
concrete arguments. -/
theorem claim_C4_witness :
    rtcInv (syncTime sampleState).rtc ∧ rtcInv (syncDate sampleState).rtc ∧
    rtcInv (syncAlarmTime sampleState).rtc ∧
    rtcInv (setSubSeconds sampleState 3).rtc ∧
    rtcInv (setSeconds sampleState 3).rtc ∧
    rtcInv (setMinutes sampleState 3).rtc ∧
    rtcInv (setHours sampleState 3 AM_PM.PM).rtc ∧
    rtcInv (setTime sampleState 3 3 3 3 AM_PM.PM).rtc ∧
    rtcInv (setWeekDay sampleState 3).rtc ∧
    rtcInv (setDay sampleState 3).rtc ∧
    rtcInv (setMonth sampleState 3).rtc ∧
    rtcInv (setYear sampleState 3).rtc ∧
    rtcInv (setDate sampleState 3 3 3).rtc ∧
    rtcInv (setDate4 sampleState 3 3 3 3).rtc ∧
    rtcInv (setAlarmSubSeconds sampleState 3).rtc ∧
    rtcInv (setAlarmSeconds sampleState 3).rtc ∧
    rtcInv (setAlarmMinutes sampleState 3).rtc ∧
    rtcInv (setAlarmHours sampleState 3 AM_PM.PM).rtc ∧
    rtcInv (setAlarmTime sampleState 3 3 3 3 AM_PM.PM).rtc ∧
    rtcInv (setAlarmDay sampleState 3).rtc ∧
    rtcInv (setAlarmMonth sampleState 3).rtc ∧
    rtcInv (setAlarmYear sampleState 3).rtc ∧
    rtcInv (setAlarmDate sampleState 3 3 3).rtc ∧
    rtcInv (enableAlarm sampleState Alarm_Match.MATCH_MMSS).rtc ∧
    rtcInv (disableAlarm sampleState).rtc ∧
    rtcInv (setAlarmEpoch sampleState 3 Alarm_Match.MATCH_MMSS 3).rtc ∧
    rtcInv (beginRTC sampleState true Hour_Format.HOUR_12 false).rtc ∧
    rtcInv (setEpoch sampleState 1234567890 999).rtc ∧
    rtcInv (setY2kEpoch sampleState 3).rtc :=
  claim_C4 sampleState (by decide) (by decide) AM_PM.PM Hour_Format.HOUR_12
    true false Alarm_Match.MATCH_MMSS 3 3 3 3 3 3 3 3 3 3 3 1234567890 999 3
    (by decide) (by decide) (by decide)
